import Mathlib

/-!
Shallow embedding of the sentinel-defi-agent repository:

  * src/encrypted-ixs/src/lib.rs — the three Arcis MPC circuits
    (init_risk_state, check_position_health, reveal_risk);
  * src/programs/sentinel/src/lib.rs — the Anchor on-chain program
    (register_position, check_health, reveal_risk and their callbacks).

Modelling conventions.  Rust u64/u128 values are Nat, with an explicit
reduction mod 2^64 exactly where the source's u64 arithmetic can wrap
(the additions `liquidation_threshold + 500/1000` in the check circuit).
The Enc<_, T> wrappers of the circuit DSL are erased: circuits are
functions on the underlying plaintext values, since encryption is a
bijection that the circuit logic sees through (to_arcis/from_arcis).
Anchor instruction handlers become pure functions from their account
inputs to an Except result; a Rust Err return aborts the whole Solana
transaction, which the apply* helpers model by committing no account
write and emitting no event on error.  The library call
output.verify_output(cluster, computation) lives outside src/, so a
callback handler takes the *result* of that call as input: some o for a
verified output, none for any verification failure.
-/

namespace SentinelDefi

/-- Wrapping 64-bit addition, the semantics of `+` on the circuit's u64
words. -/
def u64add (a b : Nat) : Nat := (a + b) % 2 ^ 64

namespace Circuits

/-- PositionData (src/encrypted-ixs/src/lib.rs lines 9-16): three u64
fields, USD cents and basis points. -/
structure PositionData where
  position_value : Nat
  collateral_ratio : Nat
  liquidation_threshold : Nat
deriving DecidableEq

/-- RiskState (src/encrypted-ixs/src/lib.rs lines 19-24): is_at_risk is
1 or 0, severity is 0..3, both stored as u64. -/
structure RiskState where
  is_at_risk : Nat
  severity : Nat
deriving DecidableEq

/-- Mxe encryption context passed to init_risk_state; its key material
never influences the plaintext value a circuit computes, so it is kept
abstract as a single Nat. -/
structure Mxe where
  key : Nat
deriving DecidableEq

/-- Circuit init_risk_state (src/encrypted-ixs/src/lib.rs lines 29-35):
builds the all-safe state and re-encrypts it for the mxe key; the key
does not affect the value. -/
def init_risk_state (_mxe : Mxe) : RiskState :=
  { is_at_risk := 0, severity := 0 }

/-- Circuit check_position_health (src/encrypted-ixs/src/lib.rs lines
49-86).  The two Rust mutable locals severity and at_risk are modelled
as one pair st = (severity, at_risk) threaded through the three
sequential if-updates of the source; the decrypted previous state is
bound and discarded exactly as in the source (`let _prev = ...`). -/
def check_position_health (position : PositionData) (risk_state : RiskState) : RiskState :=
  let pos := position
  let _prev := risk_state
  let near_liquidation : Bool :=
    decide (pos.collateral_ratio < u64add pos.liquidation_threshold 500)
  let st : Nat × Nat := (0, 0)
  let st := if near_liquidation then ((3 : Nat), (1 : Nat)) else st
  let st :=
    if st.1 == 0 && decide (pos.collateral_ratio < u64add pos.liquidation_threshold 1000)
    then ((2 : Nat), (1 : Nat)) else st
  let st :=
    if st.1 == 0 && decide (pos.position_value < 100)
    then ((1 : Nat), (1 : Nat)) else st
  { is_at_risk := st.2, severity := st.1 }

/-- Circuit reveal_risk (src/encrypted-ixs/src/lib.rs lines 92-95):
declassifies the single boolean `state.is_at_risk > 0`. -/
def reveal_risk (risk_state : RiskState) : Bool :=
  decide (risk_state.is_at_risk > 0)

end Circuits

/-- Solana identity keys (Pubkey), abstracted to Nat. -/
abbrev Pubkey := Nat

/-- One 32-byte ciphertext word, as a list of byte values. -/
abbrev CipherWord := List Nat

/-- The risk_state account field: two 32-byte ciphertext words
([[u8; 32]; 2]). -/
abbrev Ciphertexts := List CipherWord

/-- The all-zero placeholder [[0; 32]; 2] written at registration. -/
def zeroCiphertexts : Ciphertexts :=
  [List.replicate 32 0, List.replicate 32 0]

/-- PositionAccount (src/programs/sentinel/src/lib.rs lines 541-556). -/
structure PositionAccount where
  bump : Nat
  risk_state : Ciphertexts
  position_id : Nat
  owner : Pubkey
  nonce : Nat
  last_check : Int
  is_active : Bool
deriving DecidableEq

/-- ErrorCode (src/programs/sentinel/src/lib.rs lines 561-570). -/
inductive ErrorCode where
  | InvalidAuthority
  | AbortedComputation
  | ClusterNotSet
  | PositionInactive
deriving DecidableEq

/-- The action_type string carried by the ActionRequired event. -/
def emergencyWithdrawAction : String := "emergency_withdraw"

/-- Events emitted by the program (src/programs/sentinel/src/lib.rs
lines 574-598). -/
inductive Event where
  | PositionRegistered (owner : Pubkey) (position_id : Nat) (timestamp : Int)
  | HealthCheckCompleted (owner : Pubkey) (position_id : Nat) (timestamp : Int)
  | RiskRevealed (is_at_risk : Bool) (timestamp : Int)
  | ActionRequired (action_type : String) (timestamp : Int)
deriving DecidableEq

/-- Which of the three computation definitions a queued request targets. -/
inductive Circuit where
  | initRiskState
  | checkPositionHealth
  | revealRisk
deriving DecidableEq

/-- One argument pushed by ArgBuilder. -/
inductive Arg where
  | plaintext_u128 (v : Nat)
  | x25519_pubkey (k : List Nat)
  | encrypted_u64 (c : CipherWord)
  | account (address : Pubkey) (offset : Nat) (len : Nat)
deriving DecidableEq

/-- CallbackAccount: an account the eventual callback may touch, with
its writability flag. -/
structure CallbackAccount where
  pubkey : Pubkey
  is_writable : Bool
deriving DecidableEq

/-- A computation request handed to queue_computation: the circuit, the
caller-chosen offset, the built argument list and the callback's
account list. -/
structure QueuedComputation where
  circuit : Circuit
  computation_offset : Nat
  args : List Arg
  callback_accounts : List CallbackAccount
deriving DecidableEq

/-- The verified payload of an init/check callback (the IDL's field_0):
the two fresh ciphertext words plus the fresh re-encryption nonce. -/
structure EncryptedRiskState where
  ciphertexts : Ciphertexts
  nonce : Nat
deriving DecidableEq

namespace Sentinel

/-- Instruction register_position (src/programs/sentinel/src/lib.rs
lines 36-73).  payer is the signing key, posKey the address of the
freshly created position PDA, bump its bump seed.  Returns the created
account and the queued computations. -/
def register_position (payer posKey : Pubkey) (bump : Nat)
    (computation_offset : Nat) (position_id : Nat) (nonce : Nat) :
    Except ErrorCode (PositionAccount × List QueuedComputation) :=
  let acc : PositionAccount :=
    { bump := bump
      position_id := position_id
      owner := payer
      nonce := nonce
      risk_state := zeroCiphertexts
      last_check := 0
      is_active := true }
  let args := [Arg.plaintext_u128 nonce]
  Except.ok (acc,
    [{ circuit := Circuit.initRiskState
       computation_offset := computation_offset
       args := args
       callback_accounts := [{ pubkey := posKey, is_writable := true }] }])

/-- Callback init_risk_state_callback (src/programs/sentinel/src/lib.rs
lines 76-98).  verified is the result of output.verify_output: none for
any verification failure, some o for the verified output.  now is the
Clock sysvar timestamp. -/
def init_risk_state_callback (position_acc : PositionAccount)
    (verified : Option EncryptedRiskState) (now : Int) :
    Except ErrorCode (PositionAccount × List Event) :=
  match verified with
  | none => Except.error ErrorCode.AbortedComputation
  | some o =>
      let acc := { position_acc with risk_state := o.ciphertexts, nonce := o.nonce }
      Except.ok (acc, [Event.PositionRegistered acc.owner acc.position_id now])

/-- Instruction check_health (src/programs/sentinel/src/lib.rs lines
104-148).  encrypted_position are the 3 encrypted u64 fields, indexed 0,
1, 2 as in the source.  The position account itself is not written; the
handler only queues. -/
def check_health (position_acc : PositionAccount) (posKey : Pubkey)
    (computation_offset : Nat) (_position_id : Nat)
    (encrypted_position : Fin 3 → CipherWord)
    (encryption_pubkey : List Nat) (encryption_nonce : Nat) :
    Except ErrorCode (List QueuedComputation) :=
  if position_acc.is_active then
    let args :=
      [Arg.x25519_pubkey encryption_pubkey,
       Arg.plaintext_u128 encryption_nonce,
       Arg.encrypted_u64 (encrypted_position 0),
       Arg.encrypted_u64 (encrypted_position 1),
       Arg.encrypted_u64 (encrypted_position 2),
       Arg.plaintext_u128 position_acc.nonce,
       Arg.account posKey (8 + 1) (32 * 2)]
    Except.ok
      [{ circuit := Circuit.checkPositionHealth
         computation_offset := computation_offset
         args := args
         callback_accounts := [{ pubkey := posKey, is_writable := true }] }]
  else Except.error ErrorCode.PositionInactive

/-- Callback check_position_health_callback
(src/programs/sentinel/src/lib.rs lines 151-174). -/
def check_position_health_callback (position_acc : PositionAccount)
    (verified : Option EncryptedRiskState) (now : Int) :
    Except ErrorCode (PositionAccount × List Event) :=
  match verified with
  | none => Except.error ErrorCode.AbortedComputation
  | some o =>
      let acc := { position_acc with
        risk_state := o.ciphertexts
        nonce := o.nonce
        last_check := now }
      Except.ok (acc, [Event.HealthCheckCompleted acc.owner acc.position_id now])

/-- Instruction reveal_risk (src/programs/sentinel/src/lib.rs lines
179-216): owner-gated, queues the reveal circuit. -/
def reveal_risk (payer : Pubkey) (position_acc : PositionAccount)
    (posKey : Pubkey) (computation_offset : Nat) (_position_id : Nat) :
    Except ErrorCode (List QueuedComputation) :=
  if payer == position_acc.owner then
    let args :=
      [Arg.plaintext_u128 position_acc.nonce,
       Arg.account posKey (8 + 1) (32 * 2)]
    Except.ok
      [{ circuit := Circuit.revealRisk
         computation_offset := computation_offset
         args := args
         callback_accounts := [] }]
  else Except.error ErrorCode.InvalidAuthority

/-- Callback reveal_risk_callback (src/programs/sentinel/src/lib.rs
lines 219-244): emits RiskRevealed with the verified boolean and, when
it is true, an ActionRequired event.  Its account context
RevealRiskCallback (lines 499-514) contains no position account, so it
returns events only. -/
def reveal_risk_callback (verified : Option Bool) (now : Int) :
    Except ErrorCode (List Event) :=
  match verified with
  | none => Except.error ErrorCode.AbortedComputation
  | some o =>
      Except.ok ([Event.RiskRevealed o now] ++
        (if o then [Event.ActionRequired emergencyWithdrawAction now] else []))

end Sentinel

/-- Ledger commit semantics for a callback that holds the position
account: an Ok result commits the returned account and events, an Err
result aborts the transaction, leaving the account untouched and
emitting nothing.  The third component is the surfaced error, if any. -/
def applyCallback (rec : PositionAccount)
    (r : Except ErrorCode (PositionAccount × List Event)) :
    PositionAccount × List Event × Option ErrorCode :=
  match r with
  | Except.ok (rec2, evs) => (rec2, evs, none)
  | Except.error e => (rec, [], some e)

/-- Ledger commit semantics for reveal_risk_callback: since its account
context grants it no position account, any record rec on the ledger is
returned unchanged whether the callback succeeds or aborts. -/
def applyRevealCallback (rec : PositionAccount) (verified : Option Bool)
    (now : Int) : PositionAccount × List Event × Option ErrorCode :=
  match Sentinel.reveal_risk_callback verified now with
  | Except.ok evs => (rec, evs, none)
  | Except.error e => (rec, [], some e)

/-- Computations actually queued by a queuing instruction: an aborted
instruction queues nothing. -/
def queuedOf (r : Except ErrorCode (List QueuedComputation)) : List QueuedComputation :=
  match r with
  | Except.ok qs => qs
  | Except.error _ => []

/-- Coupling between the two RiskState fields that every circuit output
maintains: severity > 0 forces is_at_risk = 1 and severity = 0 forces
is_at_risk = 0. -/
def riskStateInvariant (s : Circuits.RiskState) : Prop :=
  (s.severity > 0 → s.is_at_risk = 1) ∧ (s.severity = 0 → s.is_at_risk = 0)

/-- Test fixture: an inactive record owned by key 1 with nonce 42. -/
def inactiveRecord : PositionAccount :=
  { bump := 0, risk_state := zeroCiphertexts, position_id := 7, owner := 1,
    nonce := 42, last_check := 0, is_active := false }

/-- Test fixture: an active registered record whose current nonce is 5. -/
def staleNonceRecord : PositionAccount :=
  { bump := 0, risk_state := zeroCiphertexts, position_id := 1, owner := 1,
    nonce := 5, last_check := 0, is_active := true }

/-- Test fixture: a verified output carrying the same nonce 5. -/
def repeatedNonceOutput : EncryptedRiskState :=
  { ciphertexts := zeroCiphertexts, nonce := 5 }

/-- C1: check_position_health is determined by the PositionData alone —
the prior RiskState prev is universally quantified and absent from the
result — and implements the fixed priority: severity 3 and is_at_risk 1
when collateral_ratio < liquidation_threshold + 500 (u64 wrapping
addition, position_value ignored); else severity 2 and is_at_risk 1 when
collateral_ratio < liquidation_threshold + 1000; else severity 1 and
is_at_risk 1 when position_value < 100; else severity 0 and
is_at_risk 0. -/
theorem check_position_health_priority (pos : Circuits.PositionData)
    (prev : Circuits.RiskState) :
    Circuits.check_position_health pos prev =
      if pos.collateral_ratio < u64add pos.liquidation_threshold 500 then
        { is_at_risk := 1, severity := 3 }
      else if pos.collateral_ratio < u64add pos.liquidation_threshold 1000 then
        { is_at_risk := 1, severity := 2 }
      else if pos.position_value < 100 then
        { is_at_risk := 1, severity := 1 }
      else { is_at_risk := 0, severity := 0 } := by
  by_cases h1 : pos.collateral_ratio < u64add pos.liquidation_threshold 500 <;>
    by_cases h2 : pos.collateral_ratio < u64add pos.liquidation_threshold 1000 <;>
      by_cases h3 : pos.position_value < 100 <;>
        simp [Circuits.check_position_health, h1, h2, h3]

/-- C2 counterexample: at the state with is_at_risk = 1 and severity = 0
the reveal circuit declassifies true although severity > 0 is false, so
its output does not equal the boolean severity > 0 for every RiskState
input. -/
theorem reveal_risk_severity_counterexample :
    Circuits.reveal_risk { is_at_risk := 1, severity := 0 } = true ∧
    decide (({ is_at_risk := 1, severity := 0 } : Circuits.RiskState).severity > 0)
      = false := by
  decide

/-- C2 (amended): the reveal circuit declassifies exactly the single
boolean is_at_risk > 0; on any state coupling the two fields
(is_at_risk > 0 iff severity > 0, which every circuit-produced state
satisfies) that bit coincides with severity > 0. -/
theorem reveal_risk_output (s : Circuits.RiskState) :
    Circuits.reveal_risk s = decide (s.is_at_risk > 0) ∧
    ((s.is_at_risk > 0 ↔ s.severity > 0) →
      Circuits.reveal_risk s = decide (s.severity > 0)) := by
  refine ⟨rfl, fun h => ?_⟩
  unfold Circuits.reveal_risk
  exact decide_eq_decide.mpr h

/-- C2 amended witness: instantiation at the concrete coupled state with
is_at_risk = 1 and severity = 3. -/
theorem reveal_risk_output_witness :
    Circuits.reveal_risk { is_at_risk := 1, severity := 3 } =
      decide (({ is_at_risk := 1, severity := 3 } : Circuits.RiskState).severity > 0) :=
  (reveal_risk_output { is_at_risk := 1, severity := 3 }).2 (by decide)

/-- C3: with failed verification (the verify_output result modelled as
none) each of the three callback handlers surfaces AbortedComputation
and commits nothing: the record's ciphertext, nonce and last_check are
exactly as before and no event is emitted. -/
theorem callbacks_abort_cleanly (rec : PositionAccount) (now : Int) :
    applyCallback rec (Sentinel.init_risk_state_callback rec none now) =
      (rec, [], some ErrorCode.AbortedComputation) ∧
    applyCallback rec (Sentinel.check_position_health_callback rec none now) =
      (rec, [], some ErrorCode.AbortedComputation) ∧
    applyRevealCallback rec none now =
      (rec, [], some ErrorCode.AbortedComputation) :=
  ⟨rfl, rfl, rfl⟩

/-- C4: check_health on an inactive record fails with PositionInactive
and reveal_risk called by a key other than the record's owner fails with
InvalidAuthority; in both cases the instruction aborts before queuing,
so no computation is queued and the operation has no effect. -/
theorem guards_reject_before_queuing
    (rec : PositionAccount) (payer posKey : Pubkey) (off pid : Nat)
    (encPos : Fin 3 → CipherWord) (encPk : List Nat) (encNonce : Nat) :
    (rec.is_active = false →
      Sentinel.check_health rec posKey off pid encPos encPk encNonce =
        Except.error ErrorCode.PositionInactive ∧
      queuedOf (Sentinel.check_health rec posKey off pid encPos encPk encNonce) = []) ∧
    (payer ≠ rec.owner →
      Sentinel.reveal_risk payer rec posKey off pid =
        Except.error ErrorCode.InvalidAuthority ∧
      queuedOf (Sentinel.reveal_risk payer rec posKey off pid) = []) := by
  constructor
  · intro h
    simp [Sentinel.check_health, h, queuedOf]
  · intro h
    simp [Sentinel.reveal_risk, h, queuedOf]

/-- C4 witness: the two guards fire at a concrete inactive record and a
concrete non-owner caller (key 2 against owner key 1). -/
theorem guards_reject_before_queuing_witness :
    (Sentinel.check_health inactiveRecord 9 0 7 (fun _ => []) [] 0 =
        Except.error ErrorCode.PositionInactive ∧
      queuedOf (Sentinel.check_health inactiveRecord 9 0 7 (fun _ => []) [] 0) = []) ∧
    (Sentinel.reveal_risk 2 inactiveRecord 9 0 7 =
        Except.error ErrorCode.InvalidAuthority ∧
      queuedOf (Sentinel.reveal_risk 2 inactiveRecord 9 0 7) = []) :=
  ⟨(guards_reject_before_queuing inactiveRecord 2 9 0 7 (fun _ => []) [] 0).1 rfl,
   (guards_reject_before_queuing inactiveRecord 2 9 0 7 (fun _ => []) [] 0).2 (by decide)⟩

/-- C5: a verified check callback commits exactly the returned
ciphertexts, the returned nonce and the current timestamp, leaves owner,
position_id, is_active and bump unchanged, and emits the single
HealthCheckCompleted event. -/
theorem check_callback_commits_exactly
    (rec : PositionAccount) (o : EncryptedRiskState) (now : Int) :
    ∃ rec2 evs,
      Sentinel.check_position_health_callback rec (some o) now = Except.ok (rec2, evs) ∧
      rec2.risk_state = o.ciphertexts ∧ rec2.nonce = o.nonce ∧ rec2.last_check = now ∧
      rec2.owner = rec.owner ∧ rec2.position_id = rec.position_id ∧
      rec2.is_active = rec.is_active ∧ rec2.bump = rec.bump ∧
      evs = [Event.HealthCheckCompleted rec.owner rec.position_id now] :=
  ⟨_, _, rfl, rfl, rfl, rfl, rfl, rfl, rfl, rfl, rfl⟩

/-- C6: register_position creates the record with owner equal to the
calling payer, the given position_id and nonce, the all-zero ciphertext
placeholder, last_check 0 and is_active true, and queues exactly one
computation, the init circuit; the ciphertext is still the zero
placeholder when the instruction returns. -/
theorem register_position_creates_pending
    (payer posKey : Pubkey) (bump off pid n : Nat) :
    ∃ acc qs,
      Sentinel.register_position payer posKey bump off pid n = Except.ok (acc, qs) ∧
      acc.owner = payer ∧ acc.position_id = pid ∧ acc.nonce = n ∧
      acc.risk_state = zeroCiphertexts ∧ acc.last_check = 0 ∧ acc.is_active = true ∧
      qs = [{ circuit := Circuit.initRiskState, computation_offset := off,
              args := [Arg.plaintext_u128 n],
              callback_accounts := [{ pubkey := posKey, is_writable := true }] }] :=
  ⟨_, _, rfl, rfl, rfl, rfl, rfl, rfl, rfl, rfl⟩

/-- C7 counterexample: a verified output may carry a nonce equal to the
record's current nonce; the commit then succeeds (no error surfaced) yet
the record's nonce after the commit equals its nonce before it, so a
committed mutation need not change the nonce. -/
theorem nonce_change_counterexample :
    (applyCallback staleNonceRecord
        (Sentinel.init_risk_state_callback staleNonceRecord (some repeatedNonceOutput) 0)).2.2
      = none ∧
    (applyCallback staleNonceRecord
        (Sentinel.init_risk_state_callback staleNonceRecord (some repeatedNonceOutput) 0)).1.nonce
      = staleNonceRecord.nonce :=
  ⟨rfl, rfl⟩

/-- C7 (amended): after a committed init or check callback the record's
nonce equals the nonce carried by the verified output, hence it differs
from the pre-commit nonce exactly when the output's nonce does; the
handlers themselves do not force the output nonce to be fresh. -/
theorem nonce_tracks_output (rec : PositionAccount) (o : EncryptedRiskState) (now : Int) :
    ((applyCallback rec (Sentinel.init_risk_state_callback rec (some o) now)).1.nonce
        = o.nonce ∧
     ((applyCallback rec (Sentinel.init_risk_state_callback rec (some o) now)).1.nonce
        ≠ rec.nonce ↔ o.nonce ≠ rec.nonce)) ∧
    ((applyCallback rec (Sentinel.check_position_health_callback rec (some o) now)).1.nonce
        = o.nonce ∧
     ((applyCallback rec (Sentinel.check_position_health_callback rec (some o) now)).1.nonce
        ≠ rec.nonce ↔ o.nonce ≠ rec.nonce)) :=
  ⟨⟨rfl, Iff.rfl⟩, ⟨rfl, Iff.rfl⟩⟩

/-- C8: a verified reveal callback emits RiskRevealed carrying the
verified boolean, emits ActionRequired exactly when that boolean is
true, and leaves any ledger record — ciphertext, nonce, last_check,
owner, is_active — entirely unchanged. -/
theorem reveal_callback_emits_only (rec : PositionAccount) (b : Bool) (now : Int) :
    applyRevealCallback rec (some b) now =
      (rec,
       Event.RiskRevealed b now ::
         (if b then [Event.ActionRequired emergencyWithdrawAction now] else []),
       none) := by
  cases b <;> rfl

/-- C9: init_risk_state returns the all-safe RiskState whatever the
encryption context, and always succeeds since it is a total function. -/
theorem init_risk_state_always_safe (mxe : Circuits.Mxe) :
    Circuits.init_risk_state mxe = { is_at_risk := 0, severity := 0 } :=
  rfl

/-- C10: every circuit-produced RiskState satisfies the coupling
invariant (severity > 0 forces is_at_risk = 1, severity = 0 forces
is_at_risk = 0), so on circuit-produced states the test is_at_risk > 0
that the reveal circuit performs coincides with severity > 0. -/
theorem circuit_outputs_couple_fields (mxe : Circuits.Mxe)
    (pos : Circuits.PositionData) (prev : Circuits.RiskState) :
    riskStateInvariant (Circuits.init_risk_state mxe) ∧
    riskStateInvariant (Circuits.check_position_health pos prev) ∧
    Circuits.reveal_risk (Circuits.init_risk_state mxe) =
      decide ((Circuits.init_risk_state mxe).severity > 0) ∧
    Circuits.reveal_risk (Circuits.check_position_health pos prev) =
      decide ((Circuits.check_position_health pos prev).severity > 0) := by
  refine ⟨⟨fun h => absurd h (Nat.lt_irrefl 0), fun _ => rfl⟩, ?_, rfl, ?_⟩ <;>
    by_cases h1 : pos.collateral_ratio < u64add pos.liquidation_threshold 500 <;>
      by_cases h2 : pos.collateral_ratio < u64add pos.liquidation_threshold 1000 <;>
        by_cases h3 : pos.position_value < 100 <;>
          simp [Circuits.check_position_health, Circuits.reveal_risk,
            riskStateInvariant, h1, h2, h3]

end SentinelDefi
